import Mathlib

/-!
Shallow embedding of the Hybrid Recommendation Engine of the
AsaliAsPossible repository (`services/rl_service.py`).

Python floats are modelled by `ℚ`; Python dicts whose keys may be absent
are modelled by structures of `Option` fields (`.get(k, d)` becomes
`Option.getD`, `d[k]` becomes a lookup that can fail with a KeyError);
code that can raise returns `Except String _`.  The wall clock read by
`datetime.utcnow()` is made an explicit `Clock` argument (the Python code
re-reads it once per hive iteration of `build_state_vector_78`; a single
reading per call is assumed).  The final `np.array(..., dtype=np.float32)`
cast is not modelled: float32 rounding preserves membership in `[0, 1]`
and `[-1, 1]` since the endpoints are representable.
-/

deriving instance DecidableEq for Except

namespace AsaliRL

/-- The `HiveAction` enum of `rl_service.py` (12 actions, values 0..11). -/
inductive HiveAction where
  | DO_NOTHING
  | INSPECT_HIVE
  | ADD_FOOD
  | ADD_MEDICATION
  | ADJUST_VENTILATION
  | CONTROL_TEMPERATURE
  | INTRODUCE_QUEEN
  | SPLIT_COLONY
  | RELOCATE_HIVE
  | COMBINE_WEAK_COLONIES
  | HARVEST_HONEY
  | EMERGENCY_INTERVENTION
deriving DecidableEq

/-- The numeric value of each enum member (`HiveAction.X.value` in Python). -/
def HiveAction.value : HiveAction → Nat
  | .DO_NOTHING => 0
  | .INSPECT_HIVE => 1
  | .ADD_FOOD => 2
  | .ADD_MEDICATION => 3
  | .ADJUST_VENTILATION => 4
  | .CONTROL_TEMPERATURE => 5
  | .INTRODUCE_QUEEN => 6
  | .SPLIT_COLONY => 7
  | .RELOCATE_HIVE => 8
  | .COMBINE_WEAK_COLONIES => 9
  | .HARVEST_HONEY => 10
  | .EMERGENCY_INTERVENTION => 11

/-- The Python enum call `HiveAction(i)` (named fromIdx since ofNat is taken)
for `i = action_index % 12`; the catch-all branch is unreachable in the
code, which only ever applies this to `i % 12 < 12`. -/
def HiveAction.fromIdx : Nat → HiveAction
  | 0 => .DO_NOTHING
  | 1 => .INSPECT_HIVE
  | 2 => .ADD_FOOD
  | 3 => .ADD_MEDICATION
  | 4 => .ADJUST_VENTILATION
  | 5 => .CONTROL_TEMPERATURE
  | 6 => .INTRODUCE_QUEEN
  | 7 => .SPLIT_COLONY
  | 8 => .RELOCATE_HIVE
  | 9 => .COMBINE_WEAK_COLONIES
  | 10 => .HARVEST_HONEY
  | _ => .EMERGENCY_INTERVENTION

/-- Python's `len(HiveAction)`. -/
def numActions : Nat := 12

/-- One entry of the `ACTION_METADATA` table. -/
structure ActionMeta where
  name : String
  description : String
  priority : String
  cost : Nat
  duration_hours : Nat
deriving DecidableEq

/-- The `ACTION_METADATA` lookup table of `rl_service.py`. -/
def ACTION_METADATA : HiveAction → ActionMeta
  | .DO_NOTHING =>
      ⟨"Do Nothing", "Monitor hive without intervention", "low", 0, 0⟩
  | .INSPECT_HIVE =>
      ⟨"Inspect Hive", "Visual inspection to assess colony status", "low", 5, 1⟩
  | .ADD_FOOD =>
      ⟨"Add Food", "Provide sugar syrup or pollen substitute", "medium", 10, 1⟩
  | .ADD_MEDICATION =>
      ⟨"Add Medication", "Treat for Varroa mites, nosema, or other diseases", "high", 20, 2⟩
  | .ADJUST_VENTILATION =>
      ⟨"Adjust Ventilation", "Modify hive entrance or add ventilation", "medium", 5, 1⟩
  | .CONTROL_TEMPERATURE =>
      ⟨"Control Temperature", "Add insulation or shading to regulate temperature", "medium", 15, 2⟩
  | .INTRODUCE_QUEEN =>
      ⟨"Introduce Queen", "Add new queen to queenless colony", "high", 50, 3⟩
  | .SPLIT_COLONY =>
      ⟨"Split Colony", "Divide strong colony to prevent swarming", "medium", 30, 4⟩
  | .RELOCATE_HIVE =>
      ⟨"Relocate Hive", "Move hive to better location", "low", 40, 6⟩
  | .COMBINE_WEAK_COLONIES =>
      ⟨"Combine Weak Colonies", "Merge weak hive with strong one", "high", 25, 3⟩
  | .HARVEST_HONEY =>
      ⟨"Harvest Honey", "Extract honey when production is sufficient", "low", 20, 4⟩
  | .EMERGENCY_INTERVENTION =>
      ⟨"Emergency Intervention", "Critical action for colony collapse risk", "critical", 100, 6⟩

/-- Python's `s.upper().replace(' ', '_')` on the ASCII display names
(written over the character list so it evaluates in proofs). -/
def upperUnderscore (s : String) : String :=
  String.mk (s.data.map fun ch => if ch = ' ' then '_' else ch.toUpper)

/-- NumPy's `np.clip(x, lo, hi)` (for `lo ≤ hi`). -/
def clip (x lo hi : ℚ) : ℚ := min (max x lo) hi

/-- The `current_sensors` dict: keys may be absent. -/
structure Sensors where
  temperature : Option ℚ
  humidity : Option ℚ
  weight : Option ℚ
deriving DecidableEq

/-- The `probabilities` sub-dict of the acoustic classification. -/
structure Probs where
  active : Option ℚ
  inactive : Option ℚ
  queenless : Option ℚ
deriving DecidableEq

/-- The `audio_classification` dict (only the keys `rl_service.py` reads). -/
structure AcousticSignal where
  queenless_risk : Option ℚ
  queen_present : Option Bool
  probabilities : Option Probs
deriving DecidableEq

/-- The `forecasts` sub-dict of `forecast_data`. -/
structure Forecasts where
  temperature : Option (List ℚ)
  humidity : Option (List ℚ)
deriving DecidableEq

/-- The `trends` sub-dict of `forecast_data` (only `temperature` is read). -/
structure TrendInfo where
  temperature : Option String
deriving DecidableEq

/-- The `forecast_data` dict (only the keys `rl_service.py` reads). -/
structure ForecastSignal where
  forecasts : Option Forecasts
  trends : Option TrendInfo
deriving DecidableEq

/-- The `context` dict (only the keys `rl_service.py` reads or writes). -/
structure Context where
  day_of_year : Option ℚ
  hour_of_day : Option ℚ
  hours_since_action : Option ℚ
  health_status : Option ℚ
deriving DecidableEq

/-- One reading of `datetime.utcnow()`: the fields the code extracts.
`weekday` is `datetime.weekday()` (Monday = 0), `yday` is `tm_yday`. -/
structure Clock where
  hour : Nat
  day : Nat
  month : Nat
  weekday : Nat
  yday : Nat
deriving DecidableEq

/-- The constant `HARVEST_WEIGHT_THRESHOLD = 47.0` of `RLService`. -/
def HARVEST_WEIGHT_THRESHOLD : ℚ := 47

/-- The constant `HARVEST_HONEY_LEVEL_THRESHOLD = 0.65` of `RLService`. -/
def HARVEST_HONEY_LEVEL_THRESHOLD : ℚ := 0.65

/-- The flag `USE_STOCHASTIC = True` of `RLService`. -/
def USE_STOCHASTIC : Bool := true

/-- The raw facts the sanity checks of `get_recommendation` consult:
`temp`, `humidity`, `weight`, `honey_level`, `queenless_risk` as extracted
at the top of `get_recommendation`, and `queen_present` =
`audio_classification.get('queen_present', True)`. -/
structure Env where
  temp : ℚ
  humidity : ℚ
  weight : ℚ
  honey_level : ℚ
  queenless_risk : ℚ
  queen_present : Bool
deriving DecidableEq

/-- Sanity check 1 of `get_recommendation`: do not harvest if not ready. -/
def check1 (e : Env) (a : HiveAction) : HiveAction :=
  if a = HiveAction.HARVEST_HONEY then
    if e.weight < HARVEST_WEIGHT_THRESHOLD then HiveAction.INSPECT_HIVE
    else if e.honey_level < HARVEST_HONEY_LEVEL_THRESHOLD then HiveAction.INSPECT_HIVE
    else a
  else a

/-- Sanity check 2 of `get_recommendation`: do not do nothing if there are
issues. -/
def check2 (e : Env) (a : HiveAction) : HiveAction :=
  if a = HiveAction.DO_NOTHING then
    if e.temp > 36 ∨ e.temp < 32 then HiveAction.CONTROL_TEMPERATURE
    else if e.humidity > 70 ∨ e.humidity < 50 then HiveAction.ADJUST_VENTILATION
    else if e.weight < 40 then HiveAction.ADD_FOOD
    else a
  else a

/-- Sanity check 3 of `get_recommendation`: do not introduce a queen if one
is already present. -/
def check3 (e : Env) (a : HiveAction) : HiveAction :=
  if a = HiveAction.INTRODUCE_QUEEN then
    if e.queen_present ∧ e.queenless_risk < 30 then HiveAction.INSPECT_HIVE
    else a
  else a

/-- Sanity check 4 of `get_recommendation`: verify ADD_FOOD is appropriate. -/
def check4 (e : Env) (a : HiveAction) : HiveAction :=
  if a = HiveAction.ADD_FOOD then
    if e.weight > 48 then HiveAction.INSPECT_HIVE
    else a
  else a

/-- The four sanity checks of `get_recommendation`, applied in program
order to the policy-suggested action. -/
def applySanityChecks (e : Env) (a : HiveAction) : HiveAction :=
  check4 e (check3 e (check2 e (check1 e a)))

/-- How many of the four sequential sanity checks changed the action
during one pass (counts the substitutions of a single run). -/
def sanitySubCount (e : Env) (a : HiveAction) : Nat :=
  let a1 := check1 e a
  let a2 := check2 e a1
  let a3 := check3 e a2
  let a4 := check4 e a3
  (if a1 ≠ a then 1 else 0) + (if a2 ≠ a1 then 1 else 0) +
    (if a3 ≠ a2 then 1 else 0) + (if a4 ≠ a3 then 1 else 0)

/-- Stand-in for Python's numeric string formatting (`f"{x:.1f}"` etc.);
only the reason text depends on it and no claim constrains the digits. -/
def fmtQ (q : ℚ) : String := toString q

/-- Python's `d[key]` on a dict: raises `KeyError` when the key is absent. -/
def dictGet (v : Option ℚ) (key : String) : Except String ℚ :=
  match v with
  | some x => Except.ok x
  | none => Except.error ("KeyError: " ++ key)

/-- Python list indexing `l[i]` with its negative-index convention:
a negative `i` counts from the end, and out-of-range raises `IndexError`
(in particular `l[-1]` on an empty list raises). -/
def pyIdx (l : List ℚ) (i : Int) : Except String ℚ :=
  let j : Int := if i < 0 then (l.length : Int) + i else i
  if 0 ≤ j then
    match l.get? j.toNat with
    | some x => Except.ok x
    | none => Except.error "IndexError"
  else Except.error "IndexError"

/-- The list `forecast_data.get('forecasts', {}).get('temperature', [temp] * 6)`:
the temperature forecast sequence `build_state_vector_78` actually indexes. -/
def usedTempForecasts (current_sensors : Sensors) (forecast_data : ForecastSignal) : List ℚ :=
  let temp := current_sensors.temperature.getD 34
  (forecast_data.forecasts.getD ⟨none, none⟩).temperature.getD (List.replicate 6 temp)

/-- The list `forecast_data.get('forecasts', {}).get('humidity', [humidity] * 6)`:
the humidity forecast sequence `build_state_vector_78` actually indexes. -/
def usedHumForecasts (current_sensors : Sensors) (forecast_data : ForecastSignal) : List ℚ :=
  let humidity := current_sensors.humidity.getD 65
  (forecast_data.forecasts.getD ⟨none, none⟩).humidity.getD (List.replicate 6 humidity)

/-- The 26-feature `hive_state` list of `build_state_vector_78`, given the
two already-fetched 6-hour forecast values (the only fallible step). -/
def blockList (current_sensors : Sensors) (audio_classification : AcousticSignal)
    (context : Context) (now : Clock) (temp_6h hum_6h : ℚ) : List ℚ :=
  let probs := audio_classification.probabilities.getD ⟨none, none, none⟩
  let active_prob := probs.active.getD 50 / 100
  let inactive_prob := probs.inactive.getD 25 / 100
  let queenless_prob := probs.queenless.getD 25 / 100
  let max_confidence := max active_prob (max inactive_prob queenless_prob)
  let temp := current_sensors.temperature.getD 34
  let humidity := current_sensors.humidity.getD 65
  let hour := context.hour_of_day.getD (now.hour : ℚ)
  let day : ℚ := now.day
  let month : ℚ := now.month
  let day_of_week : ℚ := now.weekday
  let is_weekend : ℚ := if 5 ≤ now.weekday then 1 else 0
  let weight := current_sensors.weight.getD 45
  let honey_level := clip ((weight - 38) / 12) 0 1
  let health_status := context.health_status.getD 1
  let colony_strength : ℚ :=
    if health_status = 2 then 0.9 else if health_status = 1 then 0.6 else 0.3
  let days_since_action := context.hours_since_action.getD 24 / 24
  let temp_trend := temp_6h - temp
  let hum_trend := hum_6h - humidity
  [active_prob, inactive_prob, queenless_prob, max_confidence,
    temp / 50, humidity / 100,
    temp / 50, 1 / 10, temp / 50, 1 / 10,
    humidity / 100, 5 / 20, humidity / 100, 5 / 20,
    hour / 24, day / 31, month / 12, day_of_week / 7, is_weekend,
    honey_level, colony_strength, days_since_action / 30,
    temp_6h / 50, hum_6h / 100,
    clip (temp_trend / 10) (-1) 1, clip (hum_trend / 20) (-1) 1]

/-- One 26-feature per-hive block of `build_state_vector_78`; the loop body
is identical for the three hive indices, so it is factored out here. -/
def hiveBlock (current_sensors : Sensors) (audio_classification : AcousticSignal)
    (forecast_data : ForecastSignal) (context : Context) (now : Clock) :
    Except String (List ℚ) := do
  let temp_forecasts := usedTempForecasts current_sensors forecast_data
  let hum_forecasts := usedHumForecasts current_sensors forecast_data
  let temp_6h ← pyIdx temp_forecasts (min 5 ((temp_forecasts.length : Int) - 1))
  let hum_6h ← pyIdx hum_forecasts (min 5 ((hum_forecasts.length : Int) - 1))
  pure (blockList current_sensors audio_classification context now temp_6h hum_6h)

/-- The method `build_state_vector_78`: three identical per-hive blocks
concatenated.
The wall clock the Python code reads via `datetime.utcnow()` is the
explicit `now` argument. -/
def buildStateVector78 (current_sensors : Sensors) (audio_classification : AcousticSignal)
    (forecast_data : ForecastSignal) (context : Context) (now : Clock) :
    Except String (List ℚ) := do
  let b ← hiveBlock current_sensors audio_classification forecast_data context now
  pure (b ++ b ++ b)

/-- The output dict of the service, as a record.  The Python code returns
plain dicts whose key sets differ per path: `sanity_checked` and
`hive_suggested` are `Option`s so that an absent key is `none`. -/
structure Recommendation where
  action : String
  action_index : Nat
  priority : String
  description : String
  reason : String
  confidence : Nat
  cost : Nat
  duration_hours : Nat
  mock_mode : Bool
  model_used : String
  sanity_checked : Option Bool
  hive_suggested : Option Int
deriving DecidableEq

/-- The helper `_build_recommendation_dict` (rule short-circuit formatter). -/
def buildRecommendationDict (action : HiveAction) (priority : String)
    (reason : String) (rule_based : Bool) : Recommendation :=
  let meta := ACTION_METADATA action
  { action := upperUnderscore meta.name,
    action_index := action.value,
    priority := priority,
    description := meta.description,
    reason := reason,
    confidence := 95,
    cost := meta.cost,
    duration_hours := meta.duration_hours,
    mock_mode := false,
    model_used := if rule_based then "Rules" else "Hybrid",
    sanity_checked := some false,
    hive_suggested := none }

/-- The helper `_generate_reason`; it indexes `sensors['temperature']`
etc. directly, so
it raises `KeyError` when a sensor key is missing. -/
def generateReason (action : HiveAction) (sensors : Sensors)
    (audio_classification : AcousticSignal) (forecast : ForecastSignal) :
    Except String String := do
  let temp ← dictGet sensors.temperature "temperature"
  let hum ← dictGet sensors.humidity "humidity"
  let weight ← dictGet sensors.weight "weight"
  let queenless_risk := audio_classification.queenless_risk.getD 0
  let trends := forecast.trends.getD ⟨none⟩
  let temp_trend := trends.temperature.getD "stable"
  pure (match action with
  | .DO_NOTHING => "All parameters within optimal range, colony healthy"
  | .INSPECT_HIVE => "Routine inspection recommended"
  | .ADD_FOOD => "Weight at " ++ fmtQ weight ++ "kg, colony may need supplemental feeding"
  | .ADD_MEDICATION => "Health indicators suggest potential disease risk"
  | .ADJUST_VENTILATION => "Humidity at " ++ fmtQ hum ++ "%, ventilation adjustment needed"
  | .CONTROL_TEMPERATURE => "Temperature " ++ temp_trend ++ " (currently " ++ fmtQ temp ++ "°C)"
  | .INTRODUCE_QUEEN => "Queenless risk at " ++ fmtQ queenless_risk ++ "%, colony needs new queen"
  | .SPLIT_COLONY => "Colony strong, splitting recommended to prevent swarming"
  | .RELOCATE_HIVE => "Environmental conditions suggest relocation beneficial"
  | .COMBINE_WEAK_COLONIES => "Weight low at " ++ fmtQ weight ++ "kg, consider combining"
  | .HARVEST_HONEY => "Weight at " ++ fmtQ weight ++ "kg indicates honey ready for harvest"
  | .EMERGENCY_INTERVENTION => "Critical conditions detected: immediate action required")

/-- The fallback `_get_rule_based_recommendation`, used when the policy is
unavailable or inference failed.  Note it indexes the sensor dict directly
(`current_sensors['temperature']`), so missing keys raise `KeyError`, and
its returned dict has no `sanity_checked` and no `hive_suggested` key. -/
def getRuleBasedRecommendation (current_sensors : Sensors)
    (audio_classification : AcousticSignal) (forecast_data : ForecastSignal)
    (_context : Context) : Except String Recommendation := do
  let temp ← dictGet current_sensors.temperature "temperature"
  let hum ← dictGet current_sensors.humidity "humidity"
  let weight ← dictGet current_sensors.weight "weight"
  let queenless_risk := audio_classification.queenless_risk.getD 0
  let ap : HiveAction × String :=
    if queenless_risk > 50 then (HiveAction.INTRODUCE_QUEEN, "critical")
    else if temp > 38 ∨ temp < 30 then (HiveAction.CONTROL_TEMPERATURE, "high")
    else if weight < 38 then (HiveAction.ADD_FOOD, "high")
    else if temp > 36 ∨ temp < 32 then (HiveAction.CONTROL_TEMPERATURE, "medium")
    else if hum > 70 ∨ hum < 50 then (HiveAction.ADJUST_VENTILATION, "medium")
    else if weight < 40 then (HiveAction.ADD_FOOD, "medium")
    else if weight > HARVEST_WEIGHT_THRESHOLD then (HiveAction.HARVEST_HONEY, "low")
    else (HiveAction.INSPECT_HIVE, "low")
  let meta := ACTION_METADATA ap.1
  let reason ← generateReason ap.1 current_sensors audio_classification forecast_data
  pure { action := upperUnderscore meta.name,
         action_index := ap.1.value,
         priority := ap.2,
         description := meta.description,
         reason := reason,
         confidence := 85,
         cost := meta.cost,
         duration_hours := meta.duration_hours,
         mock_mode := true,
         model_used := "Rules-Only",
         sanity_checked := none,
         hive_suggested := none }

/-- The default context `get_recommendation` builds when `context is None`. -/
def defaultContext (now : Clock) : Context :=
  { day_of_year := some (now.yday : ℚ),
    hour_of_day := some (now.hour : ℚ),
    hours_since_action := some 24,
    health_status := some 1 }

/-- The body of the `try:` block of `get_recommendation` (the policy path):
build the 78-state, run `model.predict`, decode `(hive_idx, action_type)`,
apply the four sanity checks, and format the result.  `m` is the wrapped
`model.predict` call (an arbitrary, possibly failing, index producer — in
stochastic mode its output is not a function of the state alone, so it is
quantified over). -/
def policyAttempt (m : List ℚ → Except String Int)
    (current_sensors : Sensors) (audio_classification : AcousticSignal)
    (forecast_data : ForecastSignal) (ctx : Context) (now : Clock) :
    Except String Recommendation := do
  let temp := current_sensors.temperature.getD 34
  let humidity := current_sensors.humidity.getD 65
  let weight := current_sensors.weight.getD 45
  let queenless_risk := audio_classification.queenless_risk.getD 0
  let honey_level := clip ((weight - 38) / 12) 0 1
  let state ← buildStateVector78 current_sensors audio_classification forecast_data ctx now
  let action_index ← m state
  let hive_idx := action_index.ediv (numActions : Int)
  let action_type_idx := (action_index.emod (numActions : Int)).toNat
  let suggested := HiveAction.fromIdx action_type_idx
  let env : Env := ⟨temp, humidity, weight, honey_level, queenless_risk,
    audio_classification.queen_present.getD true⟩
  let action_enum := applySanityChecks env suggested
  let meta := ACTION_METADATA action_enum
  let reason ← generateReason action_enum current_sensors audio_classification forecast_data
  pure { action := upperUnderscore meta.name,
         action_index := action_enum.value,
         priority := meta.priority,
         description := meta.description,
         reason := reason,
         confidence := if USE_STOCHASTIC then 80 else 90,
         cost := meta.cost,
         duration_hours := meta.duration_hours,
         mock_mode := false,
         model_used := if USE_STOCHASTIC then "PPO-Stochastic" else "PPO-Deterministic",
         sanity_checked := some true,
         hive_suggested := some hive_idx }

/-- The entry point `RLService.get_recommendation`.  `model` is
`self.model`: `none` when
the policy failed to load, otherwise the wrapped `model.predict` call.
The `try`/`except` around the policy path becomes the `Except` match:
any error inside it falls back to the rule-based path. -/
def getRecommendation (model : Option (List ℚ → Except String Int))
    (current_sensors : Sensors) (audio_classification : AcousticSignal)
    (forecast_data : ForecastSignal) (context : Option Context) (now : Clock) :
    Except String Recommendation :=
  let ctx := context.getD (defaultContext now)
  let temp := current_sensors.temperature.getD 34
  let humidity := current_sensors.humidity.getD 65
  let weight := current_sensors.weight.getD 45
  let queenless_risk := audio_classification.queenless_risk.getD 0
  let honey_level := clip ((weight - 38) / 12) 0 1
  if queenless_risk > 50 then
    Except.ok (buildRecommendationDict HiveAction.INTRODUCE_QUEEN "critical"
      ("Queenless risk at " ++ fmtQ queenless_risk ++ "%, colony needs new queen urgently") true)
  else if temp > 38 then
    Except.ok (buildRecommendationDict HiveAction.CONTROL_TEMPERATURE "high"
      ("Temperature too high at " ++ fmtQ temp ++ "°C (optimal: 32-36°C)") true)
  else if temp < 30 then
    Except.ok (buildRecommendationDict HiveAction.CONTROL_TEMPERATURE "high"
      ("Temperature too low at " ++ fmtQ temp ++ "°C (optimal: 32-36°C)") true)
  else if weight < 38 then
    Except.ok (buildRecommendationDict HiveAction.ADD_FOOD "high"
      ("Weight critically low at " ++ fmtQ weight ++ "kg, colony needs feeding") true)
  else
    match model with
    | none => getRuleBasedRecommendation current_sensors audio_classification forecast_data ctx
    | some m =>
      match policyAttempt m current_sensors audio_classification forecast_data ctx now with
      | Except.ok r => Except.ok r
      | Except.error _ =>
          getRuleBasedRecommendation current_sensors audio_classification forecast_data ctx

/-! ### Helper lemmas (shared) -/

theorem ok_bind (a : α) (f : α → Except ε β) :
    (Except.ok a : Except ε α) >>= f = f a := rfl

theorem error_bind (e : ε) (f : α → Except ε β) :
    (Except.error e : Except ε α) >>= f = Except.error e := rfl

theorem pure_eq_ok (a : α) : (pure a : Except ε α) = Except.ok a := rfl

/-! ### Claims -/

/-- C1: whenever the acoustic `queenless_risk` exceeds 50,
`get_recommendation` short-circuits on the queenless rule: regardless of
the policy model and of temperature, humidity or weight, it returns a
recommendation whose action is "INTRODUCE_QUEEN" with priority
"critical", confidence 95, model_used "Rules" and sanity_checked false. -/
theorem c1_queenless_rule_short_circuit
    (model : Option (List ℚ → Except String Int)) (current_sensors : Sensors)
    (audio_classification : AcousticSignal) (forecast_data : ForecastSignal)
    (context : Option Context) (now : Clock)
    (hq : audio_classification.queenless_risk.getD 0 > 50) :
    ∃ r, getRecommendation model current_sensors audio_classification forecast_data context now
        = Except.ok r ∧
      r.action = "INTRODUCE_QUEEN" ∧ r.priority = "critical" ∧ r.confidence = 95 ∧
      r.model_used = "Rules" ∧ r.sanity_checked = some false := by
  refine ⟨buildRecommendationDict HiveAction.INTRODUCE_QUEEN "critical"
    ("Queenless risk at " ++ fmtQ (audio_classification.queenless_risk.getD 0) ++
      "%, colony needs new queen urgently") true, ?_, rfl, rfl, rfl, rfl, rfl⟩
  simp only [getRecommendation]
  rw [if_pos hq]

/-- Witness for C1: a concrete call with `queenless_risk = 60` and no
policy model. -/
theorem c1_queenless_rule_short_circuit_witness :
    (⟨some 60, none, none⟩ : AcousticSignal).queenless_risk.getD 0 > 50 ∧
    ∃ r, getRecommendation none ⟨none, none, none⟩ ⟨some 60, none, none⟩ ⟨none, none⟩ none
        ⟨0, 1, 1, 0, 1⟩ = Except.ok r ∧
      r.action = "INTRODUCE_QUEEN" ∧ r.priority = "critical" ∧ r.confidence = 95 ∧
      r.model_used = "Rules" ∧ r.sanity_checked = some false :=
  ⟨by decide, c1_queenless_rule_short_circuit none ⟨none, none, none⟩ ⟨some 60, none, none⟩
    ⟨none, none⟩ none ⟨0, 1, 1, 0, 1⟩ (by decide)⟩

theorem check1_fix (e : Env) {b : HiveAction} (h : b ≠ HiveAction.HARVEST_HONEY) :
    check1 e b = b := by simp [check1, h]

theorem check2_fix (e : Env) {b : HiveAction} (h : b ≠ HiveAction.DO_NOTHING) :
    check2 e b = b := by simp [check2, h]

theorem check3_fix (e : Env) {b : HiveAction} (h : b ≠ HiveAction.INTRODUCE_QUEEN) :
    check3 e b = b := by simp [check3, h]

theorem check4_fix (e : Env) {b : HiveAction} (h : b ≠ HiveAction.ADD_FOOD) :
    check4 e b = b := by simp [check4, h]

/-- An action targeted by none of the four checks passes through unchanged. -/
theorem checksFix (e : Env) {b : HiveAction} (hH : b ≠ HiveAction.HARVEST_HONEY)
    (hD : b ≠ HiveAction.DO_NOTHING) (hQ : b ≠ HiveAction.INTRODUCE_QUEEN)
    (hF : b ≠ HiveAction.ADD_FOOD) : applySanityChecks e b = b := by
  simp [applySanityChecks, check1_fix e hH, check2_fix e hD, check3_fix e hQ, check4_fix e hF]

/-- C7: the ordered sequence of the four sanity checks is idempotent: for
every raw-fact environment and every candidate action, applying the checks
to the result of a first application returns that same action. -/
theorem c7_sanity_checker_idempotent (e : Env) (a : HiveAction) :
    applySanityChecks e (applySanityChecks e a) = applySanityChecks e a := by
  have fixI : applySanityChecks e HiveAction.INSPECT_HIVE = HiveAction.INSPECT_HIVE :=
    checksFix e (by decide) (by decide) (by decide) (by decide)
  have fixCT : applySanityChecks e HiveAction.CONTROL_TEMPERATURE
      = HiveAction.CONTROL_TEMPERATURE :=
    checksFix e (by decide) (by decide) (by decide) (by decide)
  have fixAV : applySanityChecks e HiveAction.ADJUST_VENTILATION
      = HiveAction.ADJUST_VENTILATION :=
    checksFix e (by decide) (by decide) (by decide) (by decide)
  cases a with
  | HARVEST_HONEY =>
      by_cases hw : e.weight < HARVEST_WEIGHT_THRESHOLD
      · have hres : applySanityChecks e HiveAction.HARVEST_HONEY = HiveAction.INSPECT_HIVE := by
          simp [applySanityChecks, check1, hw, check2_fix, check3_fix, check4_fix]
        rw [hres]; exact fixI
      · by_cases hh : e.honey_level < HARVEST_HONEY_LEVEL_THRESHOLD
        · have hres : applySanityChecks e HiveAction.HARVEST_HONEY = HiveAction.INSPECT_HIVE := by
            simp [applySanityChecks, check1, hw, hh, check2_fix, check3_fix, check4_fix]
          rw [hres]; exact fixI
        · have hres : applySanityChecks e HiveAction.HARVEST_HONEY
              = HiveAction.HARVEST_HONEY := by
            simp [applySanityChecks, check1, hw, hh, check2_fix, check3_fix, check4_fix]
          rw [hres]; exact hres
  | DO_NOTHING =>
      by_cases ht : e.temp > 36 ∨ e.temp < 32
      · have hres : applySanityChecks e HiveAction.DO_NOTHING
            = HiveAction.CONTROL_TEMPERATURE := by
          simp [applySanityChecks, check2, ht, check1_fix, check3_fix, check4_fix]
        rw [hres]; exact fixCT
      · by_cases hu : e.humidity > 70 ∨ e.humidity < 50
        · have hres : applySanityChecks e HiveAction.DO_NOTHING
              = HiveAction.ADJUST_VENTILATION := by
            simp [applySanityChecks, check2, ht, hu, check1_fix, check3_fix, check4_fix]
          rw [hres]; exact fixAV
        · by_cases hw : e.weight < 40
          · have h48 : ¬ e.weight > 48 := by linarith
            have hres : applySanityChecks e HiveAction.DO_NOTHING = HiveAction.ADD_FOOD := by
              simp [applySanityChecks, check2, check4, ht, hu, hw, h48,
                check1_fix, check3_fix]
            rw [hres]
            simp [applySanityChecks, check4, h48, check1_fix, check2_fix, check3_fix]
          · have hres : applySanityChecks e HiveAction.DO_NOTHING = HiveAction.DO_NOTHING := by
              simp [applySanityChecks, check2, ht, hu, hw, check1_fix, check3_fix, check4_fix]
            rw [hres]; exact hres
  | INTRODUCE_QUEEN =>
      by_cases hq : e.queen_present = true ∧ e.queenless_risk < 30
      · have hres : applySanityChecks e HiveAction.INTRODUCE_QUEEN
            = HiveAction.INSPECT_HIVE := by
          simp [applySanityChecks, check3, hq.1, hq.2, check1_fix, check2_fix, check4_fix]
        rw [hres]; exact fixI
      · have h3 : check3 e HiveAction.INTRODUCE_QUEEN = HiveAction.INTRODUCE_QUEEN := by
          unfold check3
          split_ifs with hc hc2 <;> first | rfl | exact absurd hc2 hq
        have hres : applySanityChecks e HiveAction.INTRODUCE_QUEEN
            = HiveAction.INTRODUCE_QUEEN := by
          simp [applySanityChecks, h3, check1_fix, check2_fix, check4_fix]
        rw [hres]; exact hres
  | ADD_FOOD =>
      by_cases hw : e.weight > 48
      · have hres : applySanityChecks e HiveAction.ADD_FOOD = HiveAction.INSPECT_HIVE := by
          simp [applySanityChecks, check4, hw, check1_fix, check2_fix, check3_fix]
        rw [hres]; exact fixI
      · have hres : applySanityChecks e HiveAction.ADD_FOOD = HiveAction.ADD_FOOD := by
          simp [applySanityChecks, check4, hw, check1_fix, check2_fix, check3_fix]
        rw [hres]; exact hres
  | INSPECT_HIVE => rw [fixI]; exact fixI
  | ADD_MEDICATION =>
      have hres := checksFix e (b := HiveAction.ADD_MEDICATION)
        (by decide) (by decide) (by decide) (by decide)
      rw [hres]; exact hres
  | ADJUST_VENTILATION => rw [fixAV]; exact fixAV
  | CONTROL_TEMPERATURE => rw [fixCT]; exact fixCT
  | SPLIT_COLONY =>
      have hres := checksFix e (b := HiveAction.SPLIT_COLONY)
        (by decide) (by decide) (by decide) (by decide)
      rw [hres]; exact hres
  | RELOCATE_HIVE =>
      have hres := checksFix e (b := HiveAction.RELOCATE_HIVE)
        (by decide) (by decide) (by decide) (by decide)
      rw [hres]; exact hres
  | COMBINE_WEAK_COLONIES =>
      have hres := checksFix e (b := HiveAction.COMBINE_WEAK_COLONIES)
        (by decide) (by decide) (by decide) (by decide)
      rw [hres]; exact hres
  | EMERGENCY_INTERVENTION =>
      have hres := checksFix e (b := HiveAction.EMERGENCY_INTERVENTION)
        (by decide) (by decide) (by decide) (by decide)
      rw [hres]; exact hres

/-- C8: during one pass of the four ordered sanity checks, at most one
substitution occurs: no input makes the output of one check's substitution
be rewritten again by a later check. -/
theorem c8_at_most_one_substitution (e : Env) (a : HiveAction) :
    sanitySubCount e a ≤ 1 := by
  cases a with
  | HARVEST_HONEY =>
      by_cases hw : e.weight < HARVEST_WEIGHT_THRESHOLD
      · simp [sanitySubCount, check1, hw, check2_fix, check3_fix, check4_fix]
      · by_cases hh : e.honey_level < HARVEST_HONEY_LEVEL_THRESHOLD
        · simp [sanitySubCount, check1, hw, hh, check2_fix, check3_fix, check4_fix]
        · simp [sanitySubCount, check1, hw, hh, check2_fix, check3_fix, check4_fix]
  | DO_NOTHING =>
      by_cases ht : e.temp > 36 ∨ e.temp < 32
      · simp [sanitySubCount, check2, ht, check1_fix, check3_fix, check4_fix]
      · by_cases hu : e.humidity > 70 ∨ e.humidity < 50
        · simp [sanitySubCount, check2, ht, hu, check1_fix, check3_fix, check4_fix]
        · by_cases hw : e.weight < 40
          · have h48 : ¬ e.weight > 48 := by linarith
            simp [sanitySubCount, check2, check4, ht, hu, hw, h48, check1_fix, check3_fix]
          · simp [sanitySubCount, check2, ht, hu, hw, check1_fix, check3_fix, check4_fix]
  | INTRODUCE_QUEEN =>
      by_cases hq : e.queen_present = true ∧ e.queenless_risk < 30
      · simp [sanitySubCount, check3, hq.1, hq.2, check1_fix, check2_fix, check4_fix]
      · have h3 : check3 e HiveAction.INTRODUCE_QUEEN = HiveAction.INTRODUCE_QUEEN := by
          unfold check3
          split_ifs with hc hc2 <;> first | rfl | exact absurd hc2 hq
        simp [sanitySubCount, h3, check1_fix, check2_fix, check4_fix]
  | ADD_FOOD =>
      by_cases hw : e.weight > 48
      · simp [sanitySubCount, check4, hw, check1_fix, check2_fix, check3_fix]
      · simp [sanitySubCount, check4, hw, check1_fix, check2_fix, check3_fix]
  | INSPECT_HIVE => simp [sanitySubCount, check1_fix, check2_fix, check3_fix, check4_fix]
  | ADD_MEDICATION => simp [sanitySubCount, check1_fix, check2_fix, check3_fix, check4_fix]
  | ADJUST_VENTILATION => simp [sanitySubCount, check1_fix, check2_fix, check3_fix, check4_fix]
  | CONTROL_TEMPERATURE => simp [sanitySubCount, check1_fix, check2_fix, check3_fix, check4_fix]
  | SPLIT_COLONY => simp [sanitySubCount, check1_fix, check2_fix, check3_fix, check4_fix]
  | RELOCATE_HIVE => simp [sanitySubCount, check1_fix, check2_fix, check3_fix, check4_fix]
  | COMBINE_WEAK_COLONIES =>
      simp [sanitySubCount, check1_fix, check2_fix, check3_fix, check4_fix]
  | EMERGENCY_INTERVENTION =>
      simp [sanitySubCount, check1_fix, check2_fix, check3_fix, check4_fix]

/-- What one pass of the sanity checks does to a HARVEST_HONEY suggestion
(checks 2–4 never touch HARVEST_HONEY or INSPECT_HIVE). -/
theorem applyHarvest (e : Env) :
    applySanityChecks e HiveAction.HARVEST_HONEY =
      if e.weight < HARVEST_WEIGHT_THRESHOLD then HiveAction.INSPECT_HIVE
      else if e.honey_level < HARVEST_HONEY_LEVEL_THRESHOLD then HiveAction.INSPECT_HIVE
      else HiveAction.HARVEST_HONEY := by
  by_cases hw : e.weight < HARVEST_WEIGHT_THRESHOLD
  · simp [applySanityChecks, check1, hw, check2_fix, check3_fix, check4_fix]
  · by_cases hl : e.honey_level < HARVEST_HONEY_LEVEL_THRESHOLD
    · simp [applySanityChecks, check1, hw, hl, check2_fix, check3_fix, check4_fix]
    · simp [applySanityChecks, check1, hw, hl, check2_fix, check3_fix, check4_fix]

/-- C4: with `honey_level = clip((weight-38)/12, 0, 1)` as computed by
`get_recommendation`, a policy-suggested HARVEST_HONEY survives the sanity
checks iff `weight ≥ 47` and `honey_level ≥ 0.65`, and otherwise becomes
INSPECT_HIVE; concretely, with sensors `{temperature 34, humidity 60}` and
`queenless_risk 2`, a policy suggesting harvest (index 10) yields
"HARVEST_HONEY" at weight 50 and "INSPECT_HIVE" at weight 46. -/
theorem c4_harvest_gating (e : Env)
    (hh : e.honey_level = clip ((e.weight - 38) / 12) 0 1) :
    (applySanityChecks e HiveAction.HARVEST_HONEY = HiveAction.HARVEST_HONEY ↔
      HARVEST_WEIGHT_THRESHOLD ≤ e.weight ∧ HARVEST_HONEY_LEVEL_THRESHOLD ≤ e.honey_level) ∧
    (¬ (HARVEST_WEIGHT_THRESHOLD ≤ e.weight ∧ HARVEST_HONEY_LEVEL_THRESHOLD ≤ e.honey_level) →
      applySanityChecks e HiveAction.HARVEST_HONEY = HiveAction.INSPECT_HIVE) ∧
    (Except.map Recommendation.action
      (getRecommendation (some fun _ => Except.ok 10) ⟨some 34, some 60, some 50⟩
        ⟨some 2, none, none⟩ ⟨none, none⟩ (some ⟨some 180, some 14, some 24, some 1⟩)
        ⟨14, 15, 6, 2, 166⟩) = Except.ok "HARVEST_HONEY") ∧
    (Except.map Recommendation.action
      (getRecommendation (some fun _ => Except.ok 10) ⟨some 34, some 60, some 46⟩
        ⟨some 2, none, none⟩ ⟨none, none⟩ (some ⟨some 180, some 14, some 24, some 1⟩)
        ⟨14, 15, 6, 2, 166⟩) = Except.ok "INSPECT_HIVE") := by
  refine ⟨?_, ?_, ?_, ?_⟩
  · rw [applyHarvest]
    constructor
    · intro hkeep
      split_ifs at hkeep with h1 h2
      all_goals first
        | exact absurd hkeep (by decide)
        | exact ⟨le_of_not_lt h1, le_of_not_lt h2⟩
    · rintro ⟨hw, hl⟩
      rw [if_neg (not_lt.mpr hw), if_neg (not_lt.mpr hl)]
  · intro hnot
    rw [applyHarvest]
    split_ifs with h1 h2
    · rfl
    · rfl
    · exact absurd ⟨le_of_not_lt h1, le_of_not_lt h2⟩ hnot
  · norm_num [getRecommendation, policyAttempt, buildStateVector78, hiveBlock,
      usedTempForecasts, usedHumForecasts, pyIdx, clip, applySanityChecks, check1, check2,
      check3, check4, HARVEST_WEIGHT_THRESHOLD, HARVEST_HONEY_LEVEL_THRESHOLD,
      USE_STOCHASTIC, numActions, ok_bind, error_bind, pure_eq_ok] <;> decide
  · norm_num [getRecommendation, policyAttempt, buildStateVector78, hiveBlock,
      usedTempForecasts, usedHumForecasts, pyIdx, clip, applySanityChecks, check1, check2,
      check3, check4, HARVEST_WEIGHT_THRESHOLD, HARVEST_HONEY_LEVEL_THRESHOLD,
      USE_STOCHASTIC, numActions, ok_bind, error_bind, pure_eq_ok] <;> decide

/-- Witness for C4 at a concrete environment (weight 50, honey level 1). -/
theorem c4_harvest_gating_witness :
    applySanityChecks ⟨34, 60, 50, 1, 2, true⟩ HiveAction.HARVEST_HONEY
      = HiveAction.HARVEST_HONEY :=
  ((c4_harvest_gating ⟨34, 60, 50, 1, 2, true⟩ (by norm_num [clip])).1).mpr
    (by norm_num [HARVEST_WEIGHT_THRESHOLD, HARVEST_HONEY_LEVEL_THRESHOLD])

/-- C10: for `honey_level = clip((weight-38)/12, 0, 1)`, any weight of at
least 47 kg forces `honey_level ≥ 0.75 > 0.65`, so the honey-level branch
of the harvest gate is unreachable when the weight branch passes: keeping
a HARVEST_HONEY suggestion is equivalent to `weight ≥ 47` alone. -/
theorem c10_weight_gate_subsumes_honey (e : Env)
    (hh : e.honey_level = clip ((e.weight - 38) / 12) 0 1) :
    (HARVEST_WEIGHT_THRESHOLD ≤ e.weight →
      3 / 4 ≤ e.honey_level ∧ ¬ e.honey_level < HARVEST_HONEY_LEVEL_THRESHOLD) ∧
    HARVEST_HONEY_LEVEL_THRESHOLD < 3 / 4 ∧
    (applySanityChecks e HiveAction.HARVEST_HONEY = HiveAction.HARVEST_HONEY ↔
      HARVEST_WEIGHT_THRESHOLD ≤ e.weight) := by
  have hlev : HARVEST_WEIGHT_THRESHOLD ≤ e.weight → 3 / 4 ≤ e.honey_level := by
    intro hw
    rw [hh]
    unfold HARVEST_WEIGHT_THRESHOLD at hw
    have hx : (3 : ℚ) / 4 ≤ (e.weight - 38) / 12 := by linarith
    exact le_min (le_trans hx (le_max_left _ _)) (by norm_num)
  refine ⟨fun hw => ⟨hlev hw, ?_⟩, by norm_num [HARVEST_HONEY_LEVEL_THRESHOLD], ?_⟩
  · have := hlev hw
    unfold HARVEST_HONEY_LEVEL_THRESHOLD
    intro hcon
    linarith
  · rw [applyHarvest]
    constructor
    · intro hkeep
      split_ifs at hkeep with h1 h2
      all_goals first
        | exact absurd hkeep (by decide)
        | exact le_of_not_lt h1
    · intro hw
      have h2 : ¬ e.honey_level < HARVEST_HONEY_LEVEL_THRESHOLD := by
        have := hlev hw
        unfold HARVEST_HONEY_LEVEL_THRESHOLD
        intro hcon
        linarith
      rw [if_neg (not_lt.mpr hw), if_neg h2]

/-- Witness for C10 at a concrete environment (weight 47 exactly). -/
theorem c10_weight_gate_subsumes_honey_witness :
    applySanityChecks ⟨34, 60, 47, 3 / 4, 2, true⟩ HiveAction.HARVEST_HONEY
      = HiveAction.HARVEST_HONEY :=
  ((c10_weight_gate_subsumes_honey ⟨34, 60, 47, 3 / 4, 2, true⟩
      (by norm_num [clip])).2.2).mpr (by norm_num [HARVEST_WEIGHT_THRESHOLD])

theorem ok_of_bind_ok {ε α β : Type _} {x : Except ε α} {f : α → Except ε β} {b : β}
    (h : x >>= f = Except.ok b) : ∃ a, x = Except.ok a ∧ f a = Except.ok b := by
  cases x with
  | error e => rw [error_bind] at h; exact Except.noConfusion h
  | ok a => rw [ok_bind] at h; exact ⟨a, rfl, h⟩

/-- With all three sensor keys present, the rule-based fallback always
returns a recommendation labelled "Rules-Only". -/
theorem ruleBasedTotal (tv hv wv : ℚ) (audio_classification : AcousticSignal)
    (forecast_data : ForecastSignal) (ctx : Context) :
    ∃ r, getRuleBasedRecommendation ⟨some tv, some hv, some wv⟩ audio_classification
        forecast_data ctx = Except.ok r ∧ r.model_used = "Rules-Only" := by
  simp only [getRuleBasedRecommendation, dictGet, generateReason, ok_bind, pure_eq_ok]
  exact ⟨_, rfl, rfl⟩

/-- Any successful result of the rule-based fallback carries
`model_used = "Rules-Only"` and no `sanity_checked` key. -/
theorem ruleBased_ok_inv (current_sensors : Sensors)
    (audio_classification : AcousticSignal) (forecast_data : ForecastSignal)
    (ctx : Context) (r : Recommendation)
    (h : getRuleBasedRecommendation current_sensors audio_classification forecast_data ctx
      = Except.ok r) : r.model_used = "Rules-Only" ∧ r.sanity_checked = none := by
  obtain ⟨t, hu, w⟩ := current_sensors
  cases t with
  | none => simp [getRuleBasedRecommendation, dictGet, error_bind] at h
  | some tv =>
    cases hu with
    | none => simp [getRuleBasedRecommendation, dictGet, ok_bind, error_bind] at h
    | some hv =>
      cases w with
      | none => simp [getRuleBasedRecommendation, dictGet, ok_bind, error_bind] at h
      | some wv =>
        simp only [getRuleBasedRecommendation, dictGet, generateReason, ok_bind,
          pure_eq_ok, Except.ok.injEq] at h
        subst h
        exact ⟨rfl, rfl⟩

/-- Any successful result of the policy path carries
`model_used = "PPO-Stochastic"`, `sanity_checked = true`, confidence 80. -/
theorem policyAttempt_ok_inv (m : List ℚ → Except String Int)
    (current_sensors : Sensors) (audio_classification : AcousticSignal)
    (forecast_data : ForecastSignal) (ctx : Context) (now : Clock) (r : Recommendation)
    (h : policyAttempt m current_sensors audio_classification forecast_data ctx now
      = Except.ok r) :
    r.model_used = "PPO-Stochastic" ∧ r.sanity_checked = some true ∧ r.confidence = 80 := by
  simp only [policyAttempt] at h
  obtain ⟨st, -, h⟩ := ok_of_bind_ok h
  obtain ⟨idx, -, h⟩ := ok_of_bind_ok h
  obtain ⟨rs, -, h⟩ := ok_of_bind_ok h
  rw [pure_eq_ok, Except.ok.injEq] at h
  subst h
  exact ⟨rfl, rfl, rfl⟩

/-- C5 counterexample: with the policy model unavailable and an empty
sensor dict, `get_recommendation` does raise — the fallback indexes
`current_sensors['temperature']` directly, so the caller sees a KeyError
instead of a recommendation. -/
theorem c5_missing_sensor_key_raises :
    getRecommendation none ⟨none, none, none⟩ ⟨none, none, none⟩ ⟨none, none⟩ none
      ⟨14, 15, 6, 2, 166⟩ = Except.error "KeyError: temperature" := by decide

/-- C5 (amended): when the policy model is unavailable and the sensor dict
contains its three keys, every call returns a recommendation (never an
exception), produced by the rules: either a rule short-circuit ("Rules")
or the rule-based fallback ("Rules-Only"). -/
theorem c5_policy_unavailable_total (tv hv wv : ℚ)
    (audio_classification : AcousticSignal) (forecast_data : ForecastSignal)
    (context : Option Context) (now : Clock) :
    ∃ r, getRecommendation none ⟨some tv, some hv, some wv⟩ audio_classification
        forecast_data context now = Except.ok r ∧
      (r.model_used = "Rules" ∨ r.model_used = "Rules-Only") := by
  simp only [getRecommendation]
  split_ifs with h1 h2 h3 h4
  all_goals try exact ⟨_, rfl, Or.inl rfl⟩
  obtain ⟨r, hr, hm⟩ := ruleBasedTotal tv hv wv audio_classification forecast_data
    (context.getD (defaultContext now))
  exact ⟨r, hr, Or.inr hm⟩

/-- C6 counterexample: a recommendation produced by the rule-based
fallback path has no `sanity_checked` key at all (modelled as `none`),
contradicting the claim that every path returns the full record. -/
theorem c6_fallback_lacks_sanity_checked :
    (getRecommendation none ⟨some 34, some 60, some 45⟩ ⟨some 2, none, none⟩ ⟨none, none⟩
        none ⟨14, 15, 6, 2, 166⟩).toOption.map Recommendation.sanity_checked
      = some none := by decide

/-- C6 (amended): recommendations from the rule short-circuit carry
`sanity_checked = false`, those from the policy path carry
`sanity_checked = true`, but those from the rule-based fallback lack the
`sanity_checked` key; every result is labelled by exactly one of the three
`model_used` values. -/
theorem c6_record_fields (model : Option (List ℚ → Except String Int))
    (current_sensors : Sensors) (audio_classification : AcousticSignal)
    (forecast_data : ForecastSignal) (context : Option Context) (now : Clock)
    (r : Recommendation)
    (h : getRecommendation model current_sensors audio_classification forecast_data context
      now = Except.ok r) :
    (r.model_used = "Rules" → r.sanity_checked = some false) ∧
    (r.model_used = "PPO-Stochastic" → r.sanity_checked = some true) ∧
    (r.model_used = "Rules-Only" → r.sanity_checked = none) ∧
    (r.model_used = "Rules" ∨ r.model_used = "PPO-Stochastic" ∨
      r.model_used = "Rules-Only") := by
  cases model with
  | none =>
      simp only [getRecommendation] at h
      split_ifs at h with h1 h2 h3 h4
      all_goals try
        (injection h with hinj
         subst hinj
         refine ⟨fun _ => rfl, fun hx => ?_, fun hx => ?_, Or.inl rfl⟩ <;>
           simp [buildRecommendationDict] at hx)
      obtain ⟨hm, hs⟩ := ruleBased_ok_inv _ _ _ _ _ h
      refine ⟨fun hx => ?_, fun hx => ?_, fun _ => hs, Or.inr (Or.inr hm)⟩
      · rw [hm] at hx; exact absurd hx (by decide)
      · rw [hm] at hx; exact absurd hx (by decide)
  | some m =>
      simp only [getRecommendation] at h
      split_ifs at h with h1 h2 h3 h4
      all_goals try
        (injection h with hinj
         subst hinj
         refine ⟨fun _ => rfl, fun hx => ?_, fun hx => ?_, Or.inl rfl⟩ <;>
           simp [buildRecommendationDict] at hx)
      cases hp : policyAttempt m current_sensors audio_classification forecast_data
          (context.getD (defaultContext now)) now with
      | ok r' =>
          rw [hp] at h
          injection h with hinj
          subst hinj
          obtain ⟨hm, hs, -⟩ := policyAttempt_ok_inv _ _ _ _ _ _ _ hp
          refine ⟨fun hx => ?_, fun _ => hs, fun hx => ?_, Or.inr (Or.inl hm)⟩
          · rw [hm] at hx; exact absurd hx (by decide)
          · rw [hm] at hx; exact absurd hx (by decide)
      | error err =>
          rw [hp] at h
          obtain ⟨hm, hs⟩ := ruleBased_ok_inv _ _ _ _ _ h
          refine ⟨fun hx => ?_, fun hx => ?_, fun _ => hs, Or.inr (Or.inr hm)⟩
          · rw [hm] at hx; exact absurd hx (by decide)
          · rw [hm] at hx; exact absurd hx (by decide)

/-- Witness for C6 at a concrete fallback call (no policy, healthy hive):
the returned record is labelled "Rules-Only" and has no sanity_checked. -/
theorem c6_record_fields_witness :
    (getRecommendation none ⟨some 34, some 61, some 45⟩ ⟨some 3, none, none⟩ ⟨none, none⟩
        none ⟨10, 3, 4, 1, 93⟩ = Except.ok
      ⟨"INSPECT_HIVE", 1, "low", "Visual inspection to assess colony status",
        "Routine inspection recommended", 85, 5, 1, true, "Rules-Only", none, none⟩) ∧
    ((Recommendation.model_used ⟨"INSPECT_HIVE", 1, "low",
        "Visual inspection to assess colony status", "Routine inspection recommended",
        85, 5, 1, true, "Rules-Only", none, none⟩ = "Rules" →
      Recommendation.sanity_checked ⟨"INSPECT_HIVE", 1, "low",
        "Visual inspection to assess colony status", "Routine inspection recommended",
        85, 5, 1, true, "Rules-Only", none, none⟩ = some false) ∧
     (Recommendation.model_used ⟨"INSPECT_HIVE", 1, "low",
        "Visual inspection to assess colony status", "Routine inspection recommended",
        85, 5, 1, true, "Rules-Only", none, none⟩ = "PPO-Stochastic" →
      Recommendation.sanity_checked ⟨"INSPECT_HIVE", 1, "low",
        "Visual inspection to assess colony status", "Routine inspection recommended",
        85, 5, 1, true, "Rules-Only", none, none⟩ = some true) ∧
     (Recommendation.model_used ⟨"INSPECT_HIVE", 1, "low",
        "Visual inspection to assess colony status", "Routine inspection recommended",
        85, 5, 1, true, "Rules-Only", none, none⟩ = "Rules-Only" →
      Recommendation.sanity_checked ⟨"INSPECT_HIVE", 1, "low",
        "Visual inspection to assess colony status", "Routine inspection recommended",
        85, 5, 1, true, "Rules-Only", none, none⟩ = none) ∧
     (Recommendation.model_used ⟨"INSPECT_HIVE", 1, "low",
        "Visual inspection to assess colony status", "Routine inspection recommended",
        85, 5, 1, true, "Rules-Only", none, none⟩ = "Rules" ∨
      Recommendation.model_used ⟨"INSPECT_HIVE", 1, "low",
        "Visual inspection to assess colony status", "Routine inspection recommended",
        85, 5, 1, true, "Rules-Only", none, none⟩ = "PPO-Stochastic" ∨
      Recommendation.model_used ⟨"INSPECT_HIVE", 1, "low",
        "Visual inspection to assess colony status", "Routine inspection recommended",
        85, 5, 1, true, "Rules-Only", none, none⟩ = "Rules-Only")) :=
  have h : getRecommendation none ⟨some 34, some 61, some 45⟩ ⟨some 3, none, none⟩
      ⟨none, none⟩ none ⟨10, 3, 4, 1, 93⟩ = Except.ok
      ⟨"INSPECT_HIVE", 1, "low", "Visual inspection to assess colony status",
        "Routine inspection recommended", 85, 5, 1, true, "Rules-Only", none, none⟩ := by
    decide
  ⟨h, c6_record_fields none ⟨some 34, some 61, some 45⟩ ⟨some 3, none, none⟩ ⟨none, none⟩
    none ⟨10, 3, 4, 1, 93⟩ _ h⟩

/-- What `pyIdx l (min 5 (len l - 1))` — the forecast lookup of
`build_state_vector_78` — returns on a nonempty list: index 5 when the
list has at least 6 elements, the last element otherwise. -/
theorem pyIdx_min5 (l : List ℚ) (hl : l ≠ []) :
    ∃ x, pyIdx l (min 5 ((l.length : Int) - 1)) = Except.ok x ∧
      (if l.length < 6 then l.getLast? else l.get? 5) = some x := by
  have hpos : 0 < l.length := List.length_pos.mpr hl
  by_cases h6 : l.length < 6
  · have hmin : min (5 : Int) ((l.length : Int) - 1) = (l.length : Int) - 1 := by
      rw [min_eq_right]; omega
    have hnn : ¬ ((l.length : Int) - 1 < 0) := by omega
    have htn : ((l.length : Int) - 1).toNat = l.length - 1 := by omega
    obtain ⟨x, hx⟩ : ∃ x, l.get? (l.length - 1) = some x := by
      rw [List.get?_eq_get (by omega)]; exact ⟨_, rfl⟩
    refine ⟨x, ?_, ?_⟩
    · simp only [pyIdx]
      rw [hmin, if_neg hnn, if_pos (by omega : (0 : Int) ≤ (l.length : Int) - 1), htn, hx]
    · rw [if_pos h6, List.getLast?_eq_get?, hx]
  · have hmin : min (5 : Int) ((l.length : Int) - 1) = 5 := by
      rw [min_eq_left]; omega
    obtain ⟨x, hx⟩ : ∃ x, l.get? 5 = some x := by
      rw [List.get?_eq_get (by omega)]; exact ⟨_, rfl⟩
    refine ⟨x, ?_, ?_⟩
    · simp only [pyIdx]
      rw [hmin, if_neg (by omega : ¬ (5 : Int) < 0), if_pos (by omega : (0 : Int) ≤ 5)]
      show (match l.get? ((5 : Int)).toNat with
        | some x => Except.ok x
        | none => Except.error "IndexError") = Except.ok x
      rw [show ((5 : Int)).toNat = 5 from rfl, hx]
    · rw [if_neg h6, hx]

/-- C9 counterexample: an empty forecast sequence is "shorter than 6", yet
`build_state_vector_78` fails on it — Python's `l[min(5, len(l)-1)]` is
`l[-1]`, an IndexError on an empty list — instead of padding. -/
theorem c9_empty_forecast_fails :
    buildStateVector78 ⟨some 34, some 60, some 45⟩ ⟨some 2, none, none⟩
      ⟨some ⟨some [], none⟩, none⟩ ⟨some 180, some 14, some 24, some 1⟩ ⟨14, 15, 6, 2, 166⟩
      = Except.error "IndexError" := by decide

/-- C9 (amended): for every *nonempty* forecast sequence shorter than 6
elements the state-vector builder uses the last available element as the
6-hours-ahead value and still succeeds; with at least 6 elements it uses
index 5.  Positions 22 and 23 of the vector hold the two normalized
6-hour-ahead forecasts. -/
theorem c9_short_forecast_padding (current_sensors : Sensors)
    (audio_classification : AcousticSignal) (forecast_data : ForecastSignal)
    (context : Context) (now : Clock)
    (htf : usedTempForecasts current_sensors forecast_data ≠ [])
    (hhf : usedHumForecasts current_sensors forecast_data ≠ []) :
    ∃ v t6 h6,
      buildStateVector78 current_sensors audio_classification forecast_data context now
        = Except.ok v ∧
      (if (usedTempForecasts current_sensors forecast_data).length < 6
        then (usedTempForecasts current_sensors forecast_data).getLast?
        else (usedTempForecasts current_sensors forecast_data).get? 5) = some t6 ∧
      (if (usedHumForecasts current_sensors forecast_data).length < 6
        then (usedHumForecasts current_sensors forecast_data).getLast?
        else (usedHumForecasts current_sensors forecast_data).get? 5) = some h6 ∧
      v.get? 22 = some (t6 / 50) ∧ v.get? 23 = some (h6 / 100) ∧ v.length = 78 := by
  obtain ⟨t6, ht6, hift⟩ := pyIdx_min5 _ htf
  obtain ⟨h6v, hh6, hifh⟩ := pyIdx_min5 _ hhf
  refine ⟨blockList current_sensors audio_classification context now t6 h6v ++
      blockList current_sensors audio_classification context now t6 h6v ++
      blockList current_sensors audio_classification context now t6 h6v,
    t6, h6v, ?_, hift, hifh, ?_, ?_, ?_⟩
  · simp only [buildStateVector78, hiveBlock, ht6, hh6, ok_bind, pure_eq_ok]
  · rfl
  · rfl
  · rfl

/-- Witness for C9: a 3-element temperature forecast (shorter than 6) is
padded with its last value 33, and the vector is built successfully. -/
theorem c9_short_forecast_padding_witness :
    usedTempForecasts ⟨some 34, some 60, some 45⟩
        ⟨some ⟨some [31, 32, 33], none⟩, none⟩ ≠ [] ∧
    usedHumForecasts ⟨some 34, some 60, some 45⟩
        ⟨some ⟨some [31, 32, 33], none⟩, none⟩ ≠ [] ∧
    ∃ v t6 h6,
      buildStateVector78 ⟨some 34, some 60, some 45⟩ ⟨some 2, none, none⟩
          ⟨some ⟨some [31, 32, 33], none⟩, none⟩ ⟨some 180, some 14, some 24, some 1⟩
          ⟨14, 15, 6, 2, 166⟩ = Except.ok v ∧
      (if (usedTempForecasts ⟨some 34, some 60, some 45⟩
            ⟨some ⟨some [31, 32, 33], none⟩, none⟩).length < 6
        then (usedTempForecasts ⟨some 34, some 60, some 45⟩
            ⟨some ⟨some [31, 32, 33], none⟩, none⟩).getLast?
        else (usedTempForecasts ⟨some 34, some 60, some 45⟩
            ⟨some ⟨some [31, 32, 33], none⟩, none⟩).get? 5) = some t6 ∧
      (if (usedHumForecasts ⟨some 34, some 60, some 45⟩
            ⟨some ⟨some [31, 32, 33], none⟩, none⟩).length < 6
        then (usedHumForecasts ⟨some 34, some 60, some 45⟩
            ⟨some ⟨some [31, 32, 33], none⟩, none⟩).getLast?
        else (usedHumForecasts ⟨some 34, some 60, some 45⟩
            ⟨some ⟨some [31, 32, 33], none⟩, none⟩).get? 5) = some h6 ∧
      v.get? 22 = some (t6 / 50) ∧ v.get? 23 = some (h6 / 100) ∧ v.length = 78 :=
  ⟨by decide, by decide,
    c9_short_forecast_padding ⟨some 34, some 60, some 45⟩ ⟨some 2, none, none⟩
      ⟨some ⟨some [31, 32, 33], none⟩, none⟩ ⟨some 180, some 14, some 24, some 1⟩
      ⟨14, 15, 6, 2, 166⟩ (by decide) (by decide)⟩

/-- C2 counterexample: two calls to the state-vector builder with
identical `(current_sensors, audio_classification, forecast_data,
context)` arguments return different vectors when the wall clock read by
`datetime.utcnow()` differs (here: day of month 1 vs 2), so the result
does not depend on the four arguments alone. -/
theorem c2_wall_clock_dependence :
    buildStateVector78 ⟨some 34, some 60, some 45⟩ ⟨some 2, none, none⟩
        ⟨some ⟨some [31, 31, 31, 31, 31, 31], some [55, 55, 55, 55, 55, 55]⟩, none⟩
        ⟨some 180, some 14, some 24, some 1⟩ ⟨14, 1, 6, 2, 166⟩
      ≠ buildStateVector78 ⟨some 34, some 60, some 45⟩ ⟨some 2, none, none⟩
        ⟨some ⟨some [31, 31, 31, 31, 31, 31], some [55, 55, 55, 55, 55, 55]⟩, none⟩
        ⟨some 180, some 14, some 24, some 1⟩ ⟨14, 2, 6, 2, 166⟩ := by
  intro h
  have h1 : buildStateVector78 ⟨some 34, some 60, some 45⟩ ⟨some 2, none, none⟩
      ⟨some ⟨some [31, 31, 31, 31, 31, 31], some [55, 55, 55, 55, 55, 55]⟩, none⟩
      ⟨some 180, some 14, some 24, some 1⟩ ⟨14, 1, 6, 2, 166⟩ = Except.ok
      (blockList ⟨some 34, some 60, some 45⟩ ⟨some 2, none, none⟩
        ⟨some 180, some 14, some 24, some 1⟩ ⟨14, 1, 6, 2, 166⟩ 31 55 ++
       blockList ⟨some 34, some 60, some 45⟩ ⟨some 2, none, none⟩
        ⟨some 180, some 14, some 24, some 1⟩ ⟨14, 1, 6, 2, 166⟩ 31 55 ++
       blockList ⟨some 34, some 60, some 45⟩ ⟨some 2, none, none⟩
        ⟨some 180, some 14, some 24, some 1⟩ ⟨14, 1, 6, 2, 166⟩ 31 55) := rfl
  have h2 : buildStateVector78 ⟨some 34, some 60, some 45⟩ ⟨some 2, none, none⟩
      ⟨some ⟨some [31, 31, 31, 31, 31, 31], some [55, 55, 55, 55, 55, 55]⟩, none⟩
      ⟨some 180, some 14, some 24, some 1⟩ ⟨14, 2, 6, 2, 166⟩ = Except.ok
      (blockList ⟨some 34, some 60, some 45⟩ ⟨some 2, none, none⟩
        ⟨some 180, some 14, some 24, some 1⟩ ⟨14, 2, 6, 2, 166⟩ 31 55 ++
       blockList ⟨some 34, some 60, some 45⟩ ⟨some 2, none, none⟩
        ⟨some 180, some 14, some 24, some 1⟩ ⟨14, 2, 6, 2, 166⟩ 31 55 ++
       blockList ⟨some 34, some 60, some 45⟩ ⟨some 2, none, none⟩
        ⟨some 180, some 14, some 24, some 1⟩ ⟨14, 2, 6, 2, 166⟩ 31 55) := rfl
  rw [h1, h2] at h
  injection h with h'
  norm_num [blockList] at h'

/-- C2 (amended): the state-vector builder is deterministic given the
four arguments *and* the wall-clock reading; it depends on the clock only
through day of month, month and weekday (plus the hour when the context
has no `hour_of_day`): with `hour_of_day` present in the context, two
calls under clocks agreeing on day, month and weekday return identical
vectors. -/
theorem c2_deterministic_given_clock (current_sensors : Sensors)
    (audio_classification : AcousticSignal) (forecast_data : ForecastSignal)
    (context : Context) (now now' : Clock)
    (hh : context.hour_of_day.isSome) (hd : now.day = now'.day)
    (hm : now.month = now'.month) (hw : now.weekday = now'.weekday) :
    buildStateVector78 current_sensors audio_classification forecast_data context now
      = buildStateVector78 current_sensors audio_classification forecast_data context now' := by
  obtain ⟨hv, hhv⟩ := Option.isSome_iff_exists.mp hh
  simp only [buildStateVector78, hiveBlock, blockList, hhv, Option.getD_some, hd, hm, hw]

/-- Witness for C2 (amended): same date, clocks differing only in the
hour and day-of-year fields, hour supplied by the context. -/
theorem c2_deterministic_given_clock_witness :
    ((⟨some 180, some 14, some 24, some 1⟩ : Context).hour_of_day.isSome) ∧
    buildStateVector78 ⟨some 34, some 60, some 45⟩ ⟨some 2, none, none⟩ ⟨none, none⟩
        ⟨some 180, some 14, some 24, some 1⟩ ⟨3, 10, 6, 2, 161⟩
      = buildStateVector78 ⟨some 34, some 60, some 45⟩ ⟨some 2, none, none⟩ ⟨none, none⟩
        ⟨some 180, some 14, some 24, some 1⟩ ⟨23, 10, 6, 2, 999⟩ :=
  ⟨by decide, c2_deterministic_given_clock ⟨some 34, some 60, some 45⟩ ⟨some 2, none, none⟩
    ⟨none, none⟩ ⟨some 180, some 14, some 24, some 1⟩ ⟨3, 10, 6, 2, 161⟩ ⟨23, 10, 6, 2, 999⟩
    (by decide) rfl rfl rfl⟩

/-- C3 counterexample: inputs are not range-checked, so a non-trend field
can leave `[0, 1]`: an acoustic `active` probability of 200 (percent) puts
`200/100 = 2 > 1` at position 0 of the built vector. -/
theorem c3_nontrend_field_out_of_range :
    ∃ v, buildStateVector78 ⟨some 34, some 60, some 45⟩
        ⟨some 2, none, some ⟨some 200, none, none⟩⟩ ⟨none, none⟩
        ⟨some 180, some 14, some 24, some 1⟩ ⟨14, 15, 6, 2, 166⟩ = Except.ok v ∧
      v.get? 0 = some ((200 : ℚ) / 100) ∧ ¬ ((200 : ℚ) / 100 ≤ 1) := by
  refine ⟨_, rfl, rfl, by norm_num⟩

theorem div_unit {x d : ℚ} (hd : 0 < d) (h0 : 0 ≤ x) (h1 : x ≤ d) :
    0 ≤ x / d ∧ x / d ≤ 1 := ⟨div_nonneg h0 hd.le, (div_le_one hd).mpr h1⟩

theorem clip01_unit (x : ℚ) : 0 ≤ clip x 0 1 ∧ clip x 0 1 ≤ 1 :=
  ⟨le_min (le_max_right x 0) (by norm_num), min_le_right _ _⟩

theorem clip_pm1 (x : ℚ) : -1 ≤ clip x (-1) 1 ∧ clip x (-1) 1 ≤ 1 :=
  ⟨le_min (le_max_right x (-1)) (by norm_num), min_le_right _ _⟩

/-- A value successfully fetched by `pyIdx` is an element of the list. -/
theorem pyIdx_mem {l : List ℚ} {i : Int} {x : ℚ} (h : pyIdx l i = Except.ok x) :
    x ∈ l := by
  simp only [pyIdx] at h
  by_cases hneg : i < 0
  · rw [if_pos hneg] at h
    by_cases hpos : 0 ≤ (l.length : Int) + i
    · rw [if_pos hpos] at h
      cases hg : l.get? ((l.length : Int) + i).toNat with
      | none => rw [hg] at h; exact Except.noConfusion h
      | some y => rw [hg] at h; exact Except.ok.inj h ▸ List.get?_mem hg
    · rw [if_neg hpos] at h; exact Except.noConfusion h
  · rw [if_neg hneg] at h
    by_cases hpos : 0 ≤ i
    · rw [if_pos hpos] at h
      cases hg : l.get? i.toNat with
      | none => rw [hg] at h; exact Except.noConfusion h
      | some y => rw [hg] at h; exact Except.ok.inj h ▸ List.get?_mem hg
    · rw [if_neg hpos] at h; exact Except.noConfusion h

/-- C3 (amended): whenever the builder succeeds and its inputs lie in
their natural ranges (temperature in [0,50], humidity in [0,100], class
probabilities in [0,100], hour in [0,24], hours-since-action in [0,720],
forecasts in sensor ranges, and a calendar-valid clock), the vector has
exactly 78 entries, the two trend fields of each 26-entry per-hive block
lie in [-1,1], and the other 24 fields of each block lie in [0,1]. -/
theorem c3_vector_shape_and_ranges (current_sensors : Sensors)
    (audio_classification : AcousticSignal) (forecast_data : ForecastSignal)
    (context : Context) (now : Clock) (v : List ℚ)
    (ht : 0 ≤ current_sensors.temperature.getD 34 ∧
      current_sensors.temperature.getD 34 ≤ 50)
    (hhum : 0 ≤ current_sensors.humidity.getD 65 ∧
      current_sensors.humidity.getD 65 ≤ 100)
    (hpa : 0 ≤ (audio_classification.probabilities.getD ⟨none, none, none⟩).active.getD 50 ∧
      (audio_classification.probabilities.getD ⟨none, none, none⟩).active.getD 50 ≤ 100)
    (hpi : 0 ≤ (audio_classification.probabilities.getD ⟨none, none, none⟩).inactive.getD 25 ∧
      (audio_classification.probabilities.getD ⟨none, none, none⟩).inactive.getD 25 ≤ 100)
    (hpq : 0 ≤ (audio_classification.probabilities.getD ⟨none, none, none⟩).queenless.getD 25 ∧
      (audio_classification.probabilities.getD ⟨none, none, none⟩).queenless.getD 25 ≤ 100)
    (hhour : 0 ≤ context.hour_of_day.getD (now.hour : ℚ) ∧
      context.hour_of_day.getD (now.hour : ℚ) ≤ 24)
    (hhsa : 0 ≤ context.hours_since_action.getD 24 ∧
      context.hours_since_action.getD 24 ≤ 720)
    (hday : now.day ≤ 31) (hmon : now.month ≤ 12) (hwd : now.weekday ≤ 6)
    (htf : ∀ x ∈ usedTempForecasts current_sensors forecast_data, 0 ≤ x ∧ x ≤ 50)
    (hhf : ∀ x ∈ usedHumForecasts current_sensors forecast_data, 0 ≤ x ∧ x ≤ 100)
    (hv : buildStateVector78 current_sensors audio_classification forecast_data context now
      = Except.ok v) :
    v.length = 78 ∧ ∃ main trend, main.length = 24 ∧ trend.length = 2 ∧
      v = (main ++ trend) ++ ((main ++ trend) ++ (main ++ trend)) ∧
      (∀ x ∈ main, 0 ≤ x ∧ x ≤ 1) ∧ (∀ x ∈ trend, -1 ≤ x ∧ x ≤ 1) := by
  simp only [buildStateVector78] at hv
  obtain ⟨b, hb, hpure⟩ := ok_of_bind_ok hv
  rw [pure_eq_ok] at hpure
  injection hpure with hpure'
  subst hpure'
  simp only [hiveBlock] at hb
  obtain ⟨t6, ht6, hb⟩ := ok_of_bind_ok hb
  obtain ⟨h6, hh6, hb⟩ := ok_of_bind_ok hb
  rw [pure_eq_ok] at hb
  injection hb with hb'
  subst hb'
  have hT6 := htf _ (pyIdx_mem ht6)
  have hH6 := hhf _ (pyIdx_mem hh6)
  refine ⟨rfl,
    [(audio_classification.probabilities.getD ⟨none, none, none⟩).active.getD 50 / 100,
     (audio_classification.probabilities.getD ⟨none, none, none⟩).inactive.getD 25 / 100,
     (audio_classification.probabilities.getD ⟨none, none, none⟩).queenless.getD 25 / 100,
     max ((audio_classification.probabilities.getD ⟨none, none, none⟩).active.getD 50 / 100)
       (max ((audio_classification.probabilities.getD ⟨none, none, none⟩).inactive.getD 25 / 100)
         ((audio_classification.probabilities.getD ⟨none, none, none⟩).queenless.getD 25 / 100)),
     current_sensors.temperature.getD 34 / 50,
     current_sensors.humidity.getD 65 / 100,
     current_sensors.temperature.getD 34 / 50, 1 / 10,
     current_sensors.temperature.getD 34 / 50, 1 / 10,
     current_sensors.humidity.getD 65 / 100, 5 / 20,
     current_sensors.humidity.getD 65 / 100, 5 / 20,
     context.hour_of_day.getD (now.hour : ℚ) / 24,
     (now.day : ℚ) / 31, (now.month : ℚ) / 12, (now.weekday : ℚ) / 7,
     if 5 ≤ now.weekday then (1 : ℚ) else 0,
     clip ((current_sensors.weight.getD 45 - 38) / 12) 0 1,
     if context.health_status.getD 1 = 2 then (0.9 : ℚ)
       else if context.health_status.getD 1 = 1 then 0.6 else 0.3,
     context.hours_since_action.getD 24 / 24 / 30,
     t6 / 50, h6 / 100],
    [clip ((t6 - current_sensors.temperature.getD 34) / 10) (-1) 1,
     clip ((h6 - current_sensors.humidity.getD 65) / 20) (-1) 1],
    rfl, rfl, rfl, ?_, ?_⟩
  · intro x hx
    fin_cases hx
    · exact div_unit (by norm_num) hpa.1 hpa.2
    · exact div_unit (by norm_num) hpi.1 hpi.2
    · exact div_unit (by norm_num) hpq.1 hpq.2
    · exact ⟨le_trans (div_unit (by norm_num) hpa.1 hpa.2).1 (le_max_left _ _),
        max_le (div_unit (by norm_num) hpa.1 hpa.2).2
          (max_le (div_unit (by norm_num) hpi.1 hpi.2).2
            (div_unit (by norm_num) hpq.1 hpq.2).2)⟩
    · exact div_unit (by norm_num) ht.1 ht.2
    · exact div_unit (by norm_num) hhum.1 hhum.2
    · exact div_unit (by norm_num) ht.1 ht.2
    · constructor <;> norm_num
    · exact div_unit (by norm_num) ht.1 ht.2
    · constructor <;> norm_num
    · exact div_unit (by norm_num) hhum.1 hhum.2
    · constructor <;> norm_num
    · exact div_unit (by norm_num) hhum.1 hhum.2
    · constructor <;> norm_num
    · exact div_unit (by norm_num) hhour.1 hhour.2
    · exact div_unit (by norm_num) (Nat.cast_nonneg _) (by exact_mod_cast hday)
    · exact div_unit (by norm_num) (Nat.cast_nonneg _) (by exact_mod_cast hmon)
    · exact div_unit (by norm_num) (Nat.cast_nonneg _)
        (le_trans (by exact_mod_cast hwd : (now.weekday : ℚ) ≤ 6) (by norm_num))
    · split_ifs <;> norm_num
    · exact clip01_unit _
    · split_ifs <;> norm_num
    · exact div_unit (by norm_num) (div_nonneg hhsa.1 (by norm_num))
        (by rw [div_le_iff (by norm_num)]; linarith [hhsa.2])
    · exact div_unit (by norm_num) hT6.1 hT6.2
    · exact div_unit (by norm_num) hH6.1 hH6.2
  · intro x hx
    fin_cases hx
    · exact clip_pm1 _
    · exact clip_pm1 _

/-- Witness for C3 (amended) at a concrete in-range input. -/
theorem c3_vector_shape_and_ranges_witness :
    (blockList ⟨some 34, some 60, some 45⟩ ⟨some 2, some true, some ⟨some 50, some 25, some 25⟩⟩
        ⟨some 180, some 14, some 24, some 1⟩ ⟨14, 15, 6, 2, 166⟩ 31 55 ++
      (blockList ⟨some 34, some 60, some 45⟩ ⟨some 2, some true, some ⟨some 50, some 25, some 25⟩⟩
        ⟨some 180, some 14, some 24, some 1⟩ ⟨14, 15, 6, 2, 166⟩ 31 55 ++
       blockList ⟨some 34, some 60, some 45⟩ ⟨some 2, some true, some ⟨some 50, some 25, some 25⟩⟩
        ⟨some 180, some 14, some 24, some 1⟩ ⟨14, 15, 6, 2, 166⟩ 31 55)).length = 78 ∧
    ∃ main trend, main.length = 24 ∧ trend.length = 2 ∧
      (blockList ⟨some 34, some 60, some 45⟩ ⟨some 2, some true, some ⟨some 50, some 25, some 25⟩⟩
          ⟨some 180, some 14, some 24, some 1⟩ ⟨14, 15, 6, 2, 166⟩ 31 55 ++
        (blockList ⟨some 34, some 60, some 45⟩
          ⟨some 2, some true, some ⟨some 50, some 25, some 25⟩⟩
          ⟨some 180, some 14, some 24, some 1⟩ ⟨14, 15, 6, 2, 166⟩ 31 55 ++
         blockList ⟨some 34, some 60, some 45⟩
          ⟨some 2, some true, some ⟨some 50, some 25, some 25⟩⟩
          ⟨some 180, some 14, some 24, some 1⟩ ⟨14, 15, 6, 2, 166⟩ 31 55))
        = (main ++ trend) ++ ((main ++ trend) ++ (main ++ trend)) ∧
      (∀ x ∈ main, 0 ≤ x ∧ x ≤ 1) ∧ (∀ x ∈ trend, -1 ≤ x ∧ x ≤ 1) :=
  c3_vector_shape_and_ranges ⟨some 34, some 60, some 45⟩
    ⟨some 2, some true, some ⟨some 50, some 25, some 25⟩⟩
    ⟨some ⟨some [31, 31, 31, 31, 31, 31], some [55, 55, 55, 55, 55, 55]⟩, none⟩
    ⟨some 180, some 14, some 24, some 1⟩ ⟨14, 15, 6, 2, 166⟩ _
    (by decide) (by decide) (by decide) (by decide) (by decide) (by decide) (by decide)
    (by decide) (by decide) (by decide) (by decide) (by decide) rfl

end AsaliRL
